import Mathlib

/-!
Shallow embedding of the two scripts of the cryptoTracking repository:

* Script A, `src/avantis_sdk_ping.py`: builds a `TraderClient` against a
  fixed provider URL, prints a header, awaits `get_pairs_info()`, and
  prints the first five `(symbol, info)` entries of the returned mapping.

* Script B, `src/jules-scratch/verification/verify_frontend.py`: launches
  a headless browser, opens a page, and inside a `try` block navigates to
  `http://localhost:3000`, waits for a heading and a text to become
  visible (timeouts 30000 ms and 60000 ms), takes a success screenshot and
  prints a success message; the `except` block prints the error message
  and takes an error screenshot; the `finally` block closes the browser.

Each externally fallible step is given an outcome in an environment
record: `none` means the call returns normally, `some msg` means it raises
an exception whose message is `msg`.  Running a script over an environment
yields the ordered list of observable events (console lines, screenshot
attempts, files written, browser-close calls) together with the exception,
if any, that propagates out of the script (a propagating exception makes
the Python process exit with a non-zero status).
-/

namespace AvantisSdkPing

/-- Provider URL hardcoded in `avantis_sdk_ping.py` line 5. -/
def providerUrl : String := "https://mainnet.base.org"

/-- Header line printed in `avantis_sdk_ping.py` line 7. -/
def headerLine : String := "Fetching Avantis perp pairs via SDK..."

/-- Outcome of the awaited SDK fetch `client.pairs_cache.get_pairs_info()`:
either it raises (with a message) or it returns a mapping, modelled as the
association list of `(symbol, info)` entries in the iteration order the
SDK provides.  The `info` records are opaque; we keep their printed form. -/
def FetchOutcome : Type := Except String (List (String × String))

/-- Environment of one run of Script A: whether `TraderClient(provider_url)`
raises, and the outcome of the awaited fetch. -/
structure EnvA where
  construct : Option String
  fetch : Except String (List (String × String))

/-- Result of one run of Script A: console lines in order, and the
exception (if any) propagating out of `main` — `asyncio.run` re-raises it,
so the process exits non-zero exactly when this is `some`. -/
structure ResultA where
  prints : List String
  uncaught : Option String
deriving Repr, DecidableEq

/-- The line printed for one mapping entry by `print(symbol, info)`:
Python separates the arguments with a single space. -/
def pairLine (p : String × String) : String := p.1 ++ " " ++ p.2

/-- Embedding of `main` in `avantis_sdk_ping.py`: construct the client,
print the header, await the fetch, and print the first five entries of
the mapping (`list(pairs.items())[:5]`).  Any exception raised by the
constructor or the fetch propagates uncaught. -/
def main (env : EnvA) : ResultA :=
  match env.construct with
  | some e => ⟨[], some e⟩
  | none =>
    match env.fetch with
    | Except.error e => ⟨[headerLine], some e⟩
    | Except.ok pairs => ⟨headerLine :: (pairs.take 5).map pairLine, none⟩

/-- Process exit status of a run of Script A (0 on normal return, 1 when
the fault propagates out of `asyncio.run`). -/
def exitCodeA (env : EnvA) : Nat :=
  match (main env).uncaught with
  | none => 0
  | some _ => 1

/-- The pair-data lines of a run: everything printed after the header. -/
def pairDataLines (r : ResultA) : List String := r.prints.drop 1

end AvantisSdkPing

namespace VerifyFrontend

/-- Locators used by the script: `page.get_by_role(role, name=name)` and
`page.get_by_text(text)`. -/
inductive Locator where
  | byRole (role : String) (name : String)
  | byText (text : String)
deriving Repr, DecidableEq

/-- Observable events of a run of `verify_frontend.py`, in program order.
`screenshot` records that `page.screenshot(path=...)` was called;
`fileWritten` records that the call completed and the file exists;
`browserClose` records that `browser.close()` was executed. -/
inductive Event where
  | goto (url : String)
  | expectVisible (loc : Locator) (timeoutMs : Nat)
  | printLine (s : String)
  | screenshot (path : String)
  | fileWritten (path : String)
  | browserClose
deriving Repr, DecidableEq

/-- URL hardcoded at line 9 of `verify_frontend.py`. -/
def frontendUrl : String := "http://localhost:3000"

/-- Success screenshot path, line 18. -/
def successShotPath : String := "/app/jules-scratch/verification/verification.png"

/-- Error screenshot path, line 24. -/
def errorShotPath : String := "/app/jules-scratch/verification/error.png"

/-- Locator of line 12: `page.get_by_role("heading", name="DeFi Borrowed Positions")`. -/
def headingLocator : Locator := Locator.byRole "heading" "DeFi Borrowed Positions"

/-- Locator of line 15: `page.get_by_text("Total Borrowed (All Chains)")`. -/
def textLocator : Locator := Locator.byText "Total Borrowed (All Chains)"

/-- Success message printed at line 20. -/
def successMsg : String := "Screenshot taken successfully."

/-- The error line printed at line 23: `print(f"An error occurred: {e}")`. -/
def errMsg (e : String) : String := "An error occurred: " ++ e

/-- Environment of one run of Script B: the outcome of each externally
fallible call, in program order.  `none` means the call returns normally;
`some msg` means it raises with message `msg`. -/
structure Env where
  launch : Option String
  newPage : Option String
  goto : Option String
  expectHeading : Option String
  expectText : Option String
  shotSuccess : Option String
  shotError : Option String
  close : Option String
deriving Repr, DecidableEq

/-- Result of one run: the events in order, and the exception (if any)
that propagates out of the script; the process exits non-zero exactly
when `uncaught` is `some`. -/
structure RunResult where
  events : List Event
  uncaught : Option String
deriving Repr, DecidableEq

/-- The `try` block, lines 8-20: navigate, the two visibility assertions
(with their timeouts in milliseconds), the success screenshot, the success
print.  Returns the events of the block together with the exception it
raises, if any; each step is attempted only if all previous ones returned. -/
def tryBody (env : Env) : List Event × Option String :=
  match env.goto with
  | some e => ([Event.goto frontendUrl], some e)
  | none =>
    match env.expectHeading with
    | some e =>
        ([Event.goto frontendUrl, Event.expectVisible headingLocator 30000], some e)
    | none =>
      match env.expectText with
      | some e =>
          ([Event.goto frontendUrl, Event.expectVisible headingLocator 30000,
            Event.expectVisible textLocator 60000], some e)
      | none =>
        match env.shotSuccess with
        | some e =>
            ([Event.goto frontendUrl, Event.expectVisible headingLocator 30000,
              Event.expectVisible textLocator 60000, Event.screenshot successShotPath],
             some e)
        | none =>
            ([Event.goto frontendUrl, Event.expectVisible headingLocator 30000,
              Event.expectVisible textLocator 60000, Event.screenshot successShotPath,
              Event.fileWritten successShotPath, Event.printLine successMsg],
             none)

/-- The `except` block, lines 22-24: print the error message, then attempt
the error screenshot.  Returns its events and the exception still pending
after the block (the error screenshot's own exception, if it raised). -/
def exceptBody (env : Env) (e : String) : List Event × Option String :=
  match env.shotError with
  | some e2 =>
      ([Event.printLine (errMsg e), Event.screenshot errorShotPath], some e2)
  | none =>
      ([Event.printLine (errMsg e), Event.screenshot errorShotPath,
        Event.fileWritten errorShotPath], none)

/-- Embedding of `run` in `verify_frontend.py` plus the module-level
`with sync_playwright()` call.  `browser = playwright.chromium.launch(...)`
and `page = browser.new_page()` are lines 4-5, outside the `try`, so an
exception there propagates without the `finally` running.  Once the `try`
is entered, the `finally` (line 27) executes `browser.close()` on every
path; an exception raised by `close` itself replaces any pending one, as
in Python, and a pending exception propagates after a normal `finally`. -/
def run (env : Env) : RunResult :=
  match env.launch with
  | some e => ⟨[], some e⟩
  | none =>
    match env.newPage with
    | some e => ⟨[], some e⟩
    | none =>
      let t := tryBody env
      let handled : List Event × Option String :=
        match t.2 with
        | none => ([], none)
        | some e => exceptBody env e
      let uncaught : Option String :=
        match env.close with
        | some ce => some ce
        | none => handled.2
      ⟨t.1 ++ handled.1 ++ [Event.browserClose], uncaught⟩

/-- Process exit status of a run of Script B (0 unless an exception
propagates out of the script). -/
def exitCode (env : Env) : Nat :=
  match (run env).uncaught with
  | none => 0
  | some _ => 1

/-- Console lines of a run, in order. -/
def prints (r : RunResult) : List String :=
  r.events.filterMap fun ev =>
    match ev with
    | Event.printLine s => some s
    | _ => none

/-- Screenshot files actually written during a run, in order. -/
def filesWritten (r : RunResult) : List String :=
  r.events.filterMap fun ev =>
    match ev with
    | Event.fileWritten p => some p
    | _ => none

/-- Number of times `browser.close()` was executed during a run. -/
def closeCount (r : RunResult) : Nat :=
  r.events.countP fun ev =>
    match ev with
    | Event.browserClose => true
    | _ => false

/-- The visibility assertions attempted during a run, in order, with
their locators and timeout bounds in milliseconds. -/
def expectEvents (r : RunResult) : List (Locator × Nat) :=
  r.events.filterMap fun ev =>
    match ev with
    | Event.expectVisible l t => some (l, t)
    | _ => none

/-- The environment in which every external call returns normally. -/
def envAllOk : Env :=
  ⟨none, none, none, none, none, none, none, none⟩

end VerifyFrontend

namespace AvantisSdkPing

/-- C3: for every pairs mapping returned by the SDK fetch, Script A prints
exactly `min n 5` pair lines (`n` the number of entries), taking the first
entries in the SDK's iteration order, with no padding and no exception
when `n < 5`. -/
theorem c3_first_five_pairs (pairs : List (String × String)) :
    pairDataLines (main ⟨none, Except.ok pairs⟩) = (pairs.take 5).map pairLine ∧
    (pairDataLines (main ⟨none, Except.ok pairs⟩)).length = min pairs.length 5 ∧
    (main ⟨none, Except.ok pairs⟩).uncaught = none := by
  refine ⟨rfl, ?_, rfl⟩
  simp [pairDataLines, main, Nat.min_comm]

/-- C6: for every run of Script A in which the SDK fetch raises a fault,
the fault propagates uncaught, the process exits non-zero, and no
pair-data line is printed (the script has no handler of its own). -/
theorem c6_fault_propagates (e : String) :
    (main ⟨none, Except.error e⟩).uncaught = some e ∧
    exitCodeA ⟨none, Except.error e⟩ = 1 ∧
    pairDataLines (main ⟨none, Except.error e⟩) = [] :=
  ⟨rfl, rfl, rfl⟩

/-- C10: Script A prints the fixed header line before the SDK fetch, so
the header is the first console line on every run that reaches the fetch,
whether the fetch returns a mapping or raises (with a non-zero exit). -/
theorem c10_header_always_printed (fetch : Except String (List (String × String))) :
    (main ⟨none, fetch⟩).prints.head? = some headerLine ∧
    (fetch.isOk = false → exitCodeA ⟨none, fetch⟩ = 1) := by
  cases fetch <;> exact ⟨rfl, fun h => by simp_all [Except.isOk, Except.toBool, exitCodeA, main]⟩

end AvantisSdkPing

namespace VerifyFrontend

/-- Number of failures among the three protected steps of the `try` block
that come before the success screenshot: navigation and the two
visibility assertions. -/
def failCount3 (env : Env) : Nat :=
  (if env.goto.isSome then 1 else 0) + (if env.expectHeading.isSome then 1 else 0) +
    (if env.expectText.isSome then 1 else 0)

/-- C2: in every run of Script B in which browser launch and page creation
succeed, `browser.close()` is executed (exactly once) on every exit path —
success, assertion failure, or any unexpected exception — via the
`finally` block. -/
theorem c2_close_every_path (env : Env) (hl : env.launch = none)
    (hp : env.newPage = none) : closeCount (run env) = 1 := by
  obtain ⟨l, p, g, eh, et, ss, se, c⟩ := env
  subst hl hp
  cases g <;> cases eh <;> cases et <;> cases ss <;> cases se <;> rfl

/-- Witness for C2 at a concrete run (an assertion-failure path). -/
theorem c2_close_every_path_witness :
    closeCount (run ⟨none, none, none, some "Timeout 30000ms exceeded.", none, none, none,
      none⟩) = 1 :=
  c2_close_every_path ⟨none, none, none, some "Timeout 30000ms exceeded.", none, none, none,
    none⟩ rfl rfl

/-- C7: in every run of Script B in which exactly one of the three
protected steps fails (navigation, first visibility assertion, or second
visibility assertion), the browser-close step executes exactly once,
whichever of the three raised. -/
theorem c7_close_once_on_single_failure (env : Env) (hl : env.launch = none)
    (hp : env.newPage = none) (hone : failCount3 env = 1) :
    closeCount (run env) = 1 := by
  obtain ⟨l, p, g, eh, et, ss, se, c⟩ := env
  subst hl hp
  cases g <;> cases eh <;> cases et <;> cases ss <;> cases se <;> rfl

/-- Witness for C7 at a concrete run where only navigation fails. -/
theorem c7_close_once_on_single_failure_witness :
    closeCount (run ⟨none, none, some "net::ERR_CONNECTION_REFUSED", none, none, none, none,
      none⟩) = 1 :=
  c7_close_once_on_single_failure ⟨none, none, some "net::ERR_CONNECTION_REFUSED", none, none,
    none, none, none⟩ rfl rfl rfl

/-- C4: in every run of Script B that gets past page creation, the
visibility assertions attempted are exactly these, in this order: first
the heading locator with accessible name "DeFi Borrowed Positions" under
a 30000 ms timeout bound, then (only if the first assertion returned) the
text locator "Total Borrowed (All Chains)" under a 60000 ms bound. -/
theorem c4_assertions_and_timeouts (env : Env) (hl : env.launch = none)
    (hp : env.newPage = none) :
    expectEvents (run env) =
      match env.goto with
      | some _ => []
      | none =>
        (headingLocator, 30000) ::
          match env.expectHeading with
          | some _ => []
          | none => [(textLocator, 60000)] := by
  obtain ⟨l, p, g, eh, et, ss, se, c⟩ := env
  subst hl hp
  cases g <;> cases eh <;> cases et <;> cases ss <;> cases se <;> rfl

/-- Witness for C4 at the all-success run: both assertions, in order. -/
theorem c4_assertions_and_timeouts_witness :
    expectEvents (run envAllOk) = [(headingLocator, 30000), (textLocator, 60000)] :=
  c4_assertions_and_timeouts envAllOk rfl rfl

end VerifyFrontend

namespace VerifyFrontend

/-- A run in which navigation raises (frontend down) and the error-branch
screenshot then raises as well (e.g. the disk is full): the screenshot's
exception is re-raised after the `finally` block and escapes the script. -/
def envNavAndErrorShotFail : Env :=
  ⟨none, none, some "net::ERR_CONNECTION_REFUSED at http://localhost:3000", none, none, none,
    some "Page.screenshot: ENOSPC: no space left on device", none⟩

/-- A run in which everything up to the success screenshot succeeds but
the success screenshot itself raises. -/
def envSuccessShotFails : Env :=
  ⟨none, none, none, none, none, some "Page.screenshot: ENOSPC: no space left on device",
    none, none⟩

/-- A run in which only navigation fails; every other call returns. -/
def envGotoFails : Env :=
  ⟨none, none, some "net::ERR_CONNECTION_REFUSED at http://localhost:3000", none, none, none,
    none, none⟩

/-- Counterexample to C1 as stated: a run whose browser launch and page
creation succeed but whose exit status is non-zero, because the exception
raised by the error-branch screenshot is not covered by the catch-all
handler and propagates out of the script. -/
theorem c1_counterexample :
    envNavAndErrorShotFail.launch = none ∧ envNavAndErrorShotFail.newPage = none ∧
    exitCode envNavAndErrorShotFail = 1 :=
  ⟨rfl, rfl, rfl⟩

/-- C1 (amended): for every run of Script B in which browser launch and
page creation succeed and in which neither the error-branch screenshot
nor `browser.close()` itself raises, the exit status is zero — any
exception raised during navigation, the two visibility assertions, or the
success screenshot is caught by the catch-all handler and does not
propagate out of the script. -/
theorem c1_exit_zero (env : Env) (hl : env.launch = none) (hp : env.newPage = none)
    (hse : env.shotError = none) (hc : env.close = none) : exitCode env = 0 := by
  obtain ⟨l, p, g, eh, et, ss, se, c⟩ := env
  subst hl hp hse hc
  cases g <;> cases eh <;> cases et <;> cases ss <;> rfl

/-- Witness for amended C1 at a run whose navigation fails: the exception
is caught and the exit status is still zero. -/
theorem c1_exit_zero_witness : exitCode envGotoFails = 0 :=
  c1_exit_zero envGotoFails rfl rfl rfl rfl

/-- Helper for C8: whenever the `try` block raises, the error line is
printed before the error screenshot is attempted — the two events follow
the `try` events immediately, in that order. -/
theorem errorLineBeforeErrorShot (env : Env) (e : String) (hl : env.launch = none)
    (hp : env.newPage = none) (he : (tryBody env).2 = some e) :
    ∃ l, (run env).events =
      (tryBody env).1 ++ Event.printLine (errMsg e) :: Event.screenshot errorShotPath :: l := by
  obtain ⟨l', p, g, eh, et, ss, se, c⟩ := env
  subst hl hp
  cases se with
  | none =>
    refine ⟨[Event.fileWritten errorShotPath, Event.browserClose], ?_⟩
    cases g <;> cases eh <;> cases et <;> cases ss <;> simp_all [run, tryBody, exceptBody]
  | some e2 =>
    refine ⟨[Event.browserClose], ?_⟩
    cases g <;> cases eh <;> cases et <;> cases ss <;> simp_all [run, tryBody, exceptBody]

/-- C8: in every run of Script B in which browser launch and page creation
succeed, exactly one of the two messages is printed — the success message
when the `try` block returns, or the single error line `An error
occurred: {e}` when it raises `e` — never both and never neither; and the
error line is printed before the error-branch screenshot is attempted, so
it appears even when that screenshot itself subsequently fails. -/
theorem c8_exactly_one_message (env : Env) (hl : env.launch = none)
    (hp : env.newPage = none) :
    (((tryBody env).2 = none ∧ prints (run env) = [successMsg]) ∨
      (∃ e, (tryBody env).2 = some e ∧ prints (run env) = [errMsg e])) ∧
    (∀ e, (tryBody env).2 = some e →
      ∃ l, (run env).events =
        (tryBody env).1 ++ Event.printLine (errMsg e) :: Event.screenshot errorShotPath ::
          l) := by
  refine ⟨?_, fun e he => errorLineBeforeErrorShot env e hl hp he⟩
  obtain ⟨l, p, g, eh, et, ss, se, c⟩ := env
  subst hl hp
  cases g <;> cases eh <;> cases et <;> cases ss <;> cases se <;>
    simp [run, tryBody, exceptBody, prints]

/-- Witness for C8 at a run whose success screenshot fails: exactly the
error line is printed, and it precedes the error screenshot attempt. -/
theorem c8_exactly_one_message_witness :
    ((((tryBody envSuccessShotFails).2 = none ∧
        prints (run envSuccessShotFails) = [successMsg]) ∨
      (∃ e, (tryBody envSuccessShotFails).2 = some e ∧
        prints (run envSuccessShotFails) = [errMsg e])) ∧
    (∀ e, (tryBody envSuccessShotFails).2 = some e →
      ∃ l, (run envSuccessShotFails).events =
        (tryBody envSuccessShotFails).1 ++
          Event.printLine (errMsg e) :: Event.screenshot errorShotPath :: l)) :=
  c8_exactly_one_message envSuccessShotFails rfl rfl

end VerifyFrontend

namespace VerifyFrontend

/-- C9: in every single run of Script B at most one of the two screenshot
files is written — the success path or the error path, never both — and
on the success path the success message is printed only after the success
screenshot call has completed (the full event order of the all-success
`try` block shows the write preceding the print). -/
theorem c9_at_most_one_file (env : Env) :
    (filesWritten (run env) = [] ∨ filesWritten (run env) = [successShotPath] ∨
      filesWritten (run env) = [errorShotPath]) ∧
    (env.launch = none → env.newPage = none → env.goto = none →
      env.expectHeading = none → env.expectText = none → env.shotSuccess = none →
      (run env).events =
        [Event.goto frontendUrl, Event.expectVisible headingLocator 30000,
          Event.expectVisible textLocator 60000, Event.screenshot successShotPath,
          Event.fileWritten successShotPath, Event.printLine successMsg,
          Event.browserClose]) := by
  constructor
  · obtain ⟨l, p, g, eh, et, ss, se, c⟩ := env
    cases l <;> cases p <;> cases g <;> cases eh <;> cases et <;> cases ss <;> cases se <;>
      simp [run, tryBody, exceptBody, filesWritten]
  · intro hl hp hg hh ht hs
    obtain ⟨l, p, g, eh, et, ss, se, c⟩ := env
    subst hl hp hg hh ht hs
    cases se <;> cases c <;> rfl

/-- Witness for C9 at the all-success run. -/
theorem c9_at_most_one_file_witness :
    (filesWritten (run envAllOk) = [] ∨ filesWritten (run envAllOk) = [successShotPath] ∨
      filesWritten (run envAllOk) = [errorShotPath]) ∧
    (run envAllOk).events =
      [Event.goto frontendUrl, Event.expectVisible headingLocator 30000,
        Event.expectVisible textLocator 60000, Event.screenshot successShotPath,
        Event.fileWritten successShotPath, Event.printLine successMsg,
        Event.browserClose] :=
  ⟨(c9_at_most_one_file envAllOk).1,
    (c9_at_most_one_file envAllOk).2 rfl rfl rfl rfl rfl rfl⟩

/-- Counterexample to C5 as stated: in `envSuccessShotFails` the
navigation and both visibility assertions succeed, yet no file is written
at the success path and the success message is not printed (the success
screenshot call itself raised); and in `envNavAndErrorShotFail` an
exception is caught, yet no file is written at the error path (the error
screenshot call itself raised). -/
theorem c5_counterexample :
    (envSuccessShotFails.goto = none ∧ envSuccessShotFails.expectHeading = none ∧
      envSuccessShotFails.expectText = none ∧
      successShotPath ∉ filesWritten (run envSuccessShotFails) ∧
      successMsg ∉ prints (run envSuccessShotFails)) ∧
    ((tryBody envNavAndErrorShotFail).2 =
        some "net::ERR_CONNECTION_REFUSED at http://localhost:3000" ∧
      errorShotPath ∉ filesWritten (run envNavAndErrorShotFail)) := by
  decide

/-- C5 (amended): in every run where navigation, both visibility
assertions and the success screenshot call succeed, a file is written at
the fixed success path and exactly the message "Screenshot taken
successfully." is printed; in every run where an exception is caught, its
message is printed (as the `An error occurred: ` line) and a screenshot
is attempted at the fixed error path — and written there whenever that
screenshot call itself succeeds. -/
theorem c5_screenshot_outcomes :
    (∀ env : Env, env.launch = none → env.newPage = none → env.goto = none →
      env.expectHeading = none → env.expectText = none → env.shotSuccess = none →
      filesWritten (run env) = [successShotPath] ∧ prints (run env) = [successMsg]) ∧
    (∀ env : Env, ∀ e, env.launch = none → env.newPage = none →
      (tryBody env).2 = some e →
      errMsg e ∈ prints (run env) ∧ Event.screenshot errorShotPath ∈ (run env).events ∧
      (env.shotError = none → filesWritten (run env) = [errorShotPath])) := by
  constructor
  · intro env hl hp hg hh ht hs
    obtain ⟨l, p, g, eh, et, ss, se, c⟩ := env
    subst hl hp hg hh ht hs
    cases se <;> cases c <;> exact ⟨rfl, rfl⟩
  · intro env e hl hp he
    obtain ⟨l, p, g, eh, et, ss, se, c⟩ := env
    subst hl hp
    cases g <;> cases eh <;> cases et <;> cases ss <;> cases se <;>
      simp_all [run, tryBody, exceptBody, prints, filesWritten]

/-- Witness for amended C5: the all-success run writes the success file
and prints the success message; the navigation-failure run prints the
error line, attempts the error screenshot and writes the error file. -/
theorem c5_screenshot_outcomes_witness :
    (filesWritten (run envAllOk) = [successShotPath] ∧
      prints (run envAllOk) = [successMsg]) ∧
    (errMsg "net::ERR_CONNECTION_REFUSED at http://localhost:3000" ∈
        prints (run envGotoFails) ∧
      Event.screenshot errorShotPath ∈ (run envGotoFails).events ∧
      (envGotoFails.shotError = none →
        filesWritten (run envGotoFails) = [errorShotPath])) :=
  ⟨c5_screenshot_outcomes.1 envAllOk rfl rfl rfl rfl rfl rfl,
    c5_screenshot_outcomes.2 envGotoFails
      "net::ERR_CONNECTION_REFUSED at http://localhost:3000" rfl rfl rfl⟩

end VerifyFrontend

namespace AvantisSdkPing

/-- Witness for C10 at a run whose fetch raises: the header is still the
first console line and the process exits non-zero. -/
theorem c10_header_always_printed_witness :
    (main ⟨none, Except.error "connection refused"⟩).prints.head? = some headerLine ∧
    ((Except.error "connection refused" :
        Except String (List (String × String))).isOk = false →
      exitCodeA ⟨none, Except.error "connection refused"⟩ = 1) :=
  c10_header_always_printed (Except.error "connection refused")

end AvantisSdkPing
